import Mathlib

/-!
Verification of the column-quality analyzer in `src/data_quality_analyzer.py`.

The file gives a shallow embedding of the analysis core and of the two
collaborators the claims mention (the safe query runner and the dynamic
query builder), then settles the claims as theorems about the embedding.

Modelling conventions:
* pandas cell values become `Value`: the null marker (`NaN`/`None`),
  a numeric value (machine ints and floats are modelled as `ℚ`, so that
  `0 == 0.0` holds exactly as in the source), or a string.
* a pandas column dtype becomes `DType`; `numeric` stands for dtypes with
  `pd.api.types.is_numeric_dtype`, `text` for
  `is_string_dtype`/`is_object_dtype`, `temporal` for datetime dtypes and
  `other` for the rest.  These predicates are mutually exclusive on one
  dtype, which the single `DType` tag captures.
* percentages are `ℚ`.  The source stores `round(x, 1)` copies in its
  per-column dict purely for display; the decision logic uses the
  unrounded values, and the embedding keeps the unrounded values.
* a dataframe is a list of named, typed columns; `DataFrame.empty`
  mirrors `pandas.DataFrame.empty` (no columns, or zero rows).
* the fallible collaborators return `Except`/`Option` where the source
  raises or returns `None`.
-/

namespace DataQualityAnalyzer

/-- A cell value of the analyzed table: the null marker, a numeric value,
or a string.  Mirrors the values a pandas column of the source can hold. -/
inductive Value where
  | null : Value
  | num : ℚ → Value
  | str : String → Value
deriving DecidableEq

/-- `True` exactly on the null marker (`df[col].isnull()` in the source). -/
def Value.isNull : Value → Bool
  | .null => true
  | _ => false

/-- Numeric equality with zero (`col_data == 0` in the source); a string or
the null marker never counts as zero. -/
def Value.isZero : Value → Bool
  | .num q => q == 0
  | _ => false

/-- Whitespace characters removed by Python's `str.strip()` (ASCII subset;
the concrete inputs of this development only use the space character). -/
def isPyWhitespace (c : Char) : Bool :=
  c == ' ' || c == '\t' || c == '\n' || c == '\r' || c == '\x0b' || c == '\x0c'

/-- Python's `str.strip()`: remove leading and trailing whitespace. -/
def strip (s : String) : String :=
  String.mk (((s.data.dropWhile isPyWhitespace).reverse.dropWhile isPyWhitespace).reverse)

/-- Python's `str(value)` coercion used by `col_data.astype(str)`: a string
stays itself, a number takes its printed form, the null marker prints as
`None` (unreachable in the source because nulls are dropped first). -/
def Value.toStr : Value → String
  | .null => "None"
  | .num q => toString q
  | .str s => s

/-- `True` iff the value, coerced to its string form and stripped of
leading/trailing whitespace, is the zero-length string
(`col_data.astype(str).str.strip() == ''` in the source). -/
def isEmptyText (v : Value) : Bool := strip v.toStr == ""

/-- Declared kind of a column, i.e. the dtype classification the source
queries through `pd.api.types`: `numeric` ↔ `is_numeric_dtype`,
`text` ↔ `is_string_dtype or is_object_dtype`, `temporal` for datetime
dtypes, `other` for the rest.  One column has exactly one dtype. -/
inductive DType where
  | numeric : DType
  | text : DType
  | temporal : DType
  | other : DType
deriving DecidableEq

/-- A reason code accumulated for a column, with the parameter the source
interpolates into the reason string.  `low_variance` is part of the reason
vocabulary of the specification (§4.2) and is included so that statements
about it can be made; the source never emits it. -/
inductive Reason where
  | many_nulls : ℚ → Reason
  | single_value : Value → Reason
  | low_variance : Reason
  | many_zeros : ℚ → Reason
  | empty_strings : ℚ → Reason
deriving DecidableEq

/-- `True` exactly on a `many_zeros` reason. -/
def Reason.isManyZeros : Reason → Bool
  | .many_zeros _ => true
  | _ => false

/-- `True` exactly on an `empty_strings` reason. -/
def Reason.isEmptyStrings : Reason → Bool
  | .empty_strings _ => true
  | _ => false

/-- `True` exactly on the `low_variance` reason. -/
def Reason.isLowVariance : Reason → Bool
  | .low_variance => true
  | _ => false

/-- The per-column verdict: `manter` (keep) or `excluir` (exclude),
exactly the two action strings of the source. -/
inductive Acao where
  | manter : Acao
  | excluir : Acao
deriving DecidableEq

/-- `df[col].dropna()`: the non-null values of a column. -/
def dropna (vs : List Value) : List Value := vs.filter (fun v => !v.isNull)

/-- `total_data.isnull().sum()`: number of null markers. -/
def nullCount (vs : List Value) : Nat := vs.countP Value.isNull

/-- `(null_count / len(total_data)) * 100`.  In `ℚ` division by zero yields
`0`; the source's caller guards `len(total_data) > 0` (an empty dataframe
is rejected before any column is analyzed), so the two never differ on a
reachable input. -/
def nullPercent (vs : List Value) : ℚ :=
  ((nullCount vs : ℚ) / (vs.length : ℚ)) * 100

/-- `col_data.nunique() if len(col_data) > 0 else 0`: number of distinct
non-null values (distinctness by value equality). -/
def uniqueCount (col_data : List Value) : Nat :=
  if 0 < col_data.length then col_data.dedup.length else 0

/-- `(unique_count / len(col_data)) * 100 if len(col_data) > 0 else 0`. -/
def uniquePercent (col_data : List Value) : ℚ :=
  if 0 < col_data.length then ((uniqueCount col_data : ℚ) / (col_data.length : ℚ)) * 100
  else 0

/-- Zero ratio: computed only for a non-empty numeric column
(`len(col_data) > 0 and pd.api.types.is_numeric_dtype(col_data)`),
otherwise it keeps its initial value `0`. -/
def zeroPercent (dt : DType) (col_data : List Value) : ℚ :=
  if 0 < col_data.length ∧ dt = DType.numeric then
    ((col_data.countP Value.isZero : ℚ) / (col_data.length : ℚ)) * 100
  else 0

/-- Empty-string ratio: computed only for a non-empty text/object column,
otherwise it keeps its initial value `0`. -/
def emptyPercent (dt : DType) (col_data : List Value) : ℚ :=
  if 0 < col_data.length ∧ dt = DType.text then
    ((col_data.countP isEmptyText : ℚ) / (col_data.length : ℚ)) * 100
  else 0

/-- The ordered reason accumulation of the per-column loop of
`identify_columns_to_exclude` (source lines 295–325): criterion 1 many
nulls, criterion 2 single distinct value (reason carries the first
non-null value, `col_data.iloc[0]`), criterion 3 many zeros (numeric
columns), criterion 4 empty strings (text columns).  Each criterion
appends at most one reason, in this order. -/
def reasonsOf (null_threshold zero_threshold : ℚ) (dt : DType) (vs : List Value) :
    List Reason :=
  (if nullPercent vs ≥ null_threshold then [Reason.many_nulls (nullPercent vs)] else []) ++
  (if 0 < (dropna vs).length ∧ uniqueCount (dropna vs) = 1 then
    [Reason.single_value ((dropna vs).headD Value.null)] else []) ++
  (if (0 < (dropna vs).length ∧ dt = DType.numeric) ∧
      zeroPercent dt (dropna vs) ≥ zero_threshold then
    [Reason.many_zeros (zeroPercent dt (dropna vs))] else []) ++
  (if (0 < (dropna vs).length ∧ dt = DType.text) ∧
      emptyPercent dt (dropna vs) ≥ zero_threshold then
    [Reason.empty_strings (emptyPercent dt (dropna vs))] else [])

/-- One entry of `all_column_analysis` (source lines 340–352): the column
name, the decided action, the metrics, and the structured reason list
(the source stores the reasons both as the joined `Motivos` string and as
the `exclusion_reasons[col]` list; the embedding keeps the list). -/
structure ColAnalysis where
  coluna : String
  acao : Acao
  nulos_count : Nat
  nulos_percent : ℚ
  valores_unicos : Nat
  variancia_percent : ℚ
  zeros_percent : ℚ
  vazias_percent : ℚ
  reasons : List Reason
deriving DecidableEq

/-- The per-column body of the analysis loop: compute the metrics, apply
the four criteria, and decide `EXCLUIR` iff at least one reason
accumulated (`if reasons:` in the source). -/
def analyzeColumn (null_threshold zero_threshold : ℚ) (name : String)
    (dt : DType) (vs : List Value) : ColAnalysis :=
  { coluna := name
    acao := if reasonsOf null_threshold zero_threshold dt vs = [] then Acao.manter
            else Acao.excluir
    nulos_count := nullCount vs
    nulos_percent := nullPercent vs
    valores_unicos := uniqueCount (dropna vs)
    variancia_percent := uniquePercent (dropna vs)
    zeros_percent := zeroPercent dt (dropna vs)
    vazias_percent := emptyPercent dt (dropna vs)
    reasons := reasonsOf null_threshold zero_threshold dt vs }

/-- One column of the queried dataframe: its name, its declared dtype, and
its cell values (one per row). -/
structure Col where
  name : String
  dtype : DType
  values : List Value
deriving DecidableEq

/-- The dataframe returned by the data source: an ordered list of columns.
All columns of a well-formed pandas dataframe have the same length. -/
structure DataFrame where
  cols : List Col
deriving DecidableEq

/-- Number of rows (the common length of the columns). -/
def DataFrame.nrows (df : DataFrame) : Nat :=
  match df.cols with
  | [] => 0
  | c :: _ => c.values.length

/-- `pandas.DataFrame.empty`: true iff the frame has no columns or no rows. -/
def DataFrame.empty (df : DataFrame) : Bool :=
  df.cols.isEmpty || df.nrows == 0

/-- The result dict of `identify_columns_to_exclude` (source lines
406–417), restricted to the analysis payload: the report-file and
query-echo fields are presentation plumbing outside the claims. -/
structure AnalysisResult where
  total_columns : Nat
  columns_to_exclude : List String
  columns_to_keep : List String
  all_analysis : List ColAnalysis
deriving DecidableEq

/-- The analysis core of `identify_columns_to_exclude` from the point the
dataframe is available (source lines 283–417): reject an empty frame with
`None`, otherwise analyze every column in order; a column joins
`columns_to_exclude` iff its reason list is non-empty, and
`columns_to_keep` is the list-comprehension complement
`[col for col in df.columns if col not in columns_to_exclude]`. -/
def identify_columns_to_exclude (df : DataFrame)
    (null_threshold zero_threshold : ℚ) : Option AnalysisResult :=
  if df.empty then none
  else
    let all_analysis := df.cols.map
      (fun c => analyzeColumn null_threshold zero_threshold c.name c.dtype c.values)
    let colsEx := (all_analysis.filter (fun a => a.reasons ≠ [])).map ColAnalysis.coluna
    some { total_columns := df.cols.length
           columns_to_exclude := colsEx
           columns_to_keep := (df.cols.map Col.name).filter (fun n => n ∉ colsEx)
           all_analysis := all_analysis }

/-- `analyze_for_exclusion` (source lines 419–445): dispatch to
`identify_columns_to_exclude` with the strict preset (null 70, zero/empty
90) or the relaxed default preset (null 90, zero/empty 80). -/
def analyze_for_exclusion (strict : Bool) (df : DataFrame) : Option AnalysisResult :=
  if strict then identify_columns_to_exclude df 70 90
  else identify_columns_to_exclude df 90 80

/-- `query_sqlserver_safe` (source lines 71–97).  The connection attempt is
modelled by an `Option` (the source's `get_connection_sqlserver` returns
`(None, None)` on failure) and the query execution by an `Except`-valued
function (the source's `pd.read_sql`, which raises on a query error).
The source prints the error and returns `pd.DataFrame()` — an empty
frame — in both failure branches; on success it returns the frame. -/
def query_sqlserver_safe (conn : Option Unit)
    (read_sql : Unit → Except String DataFrame) : DataFrame :=
  match conn with
  | none => DataFrame.mk []
  | some c =>
    match read_sql c with
    | Except.ok df => df
    | Except.error _ => DataFrame.mk []

/-- A filter value of `build_filtered_query`: a scalar or a list of
scalars (only `IN`/`NOT IN` treat lists specially). -/
inductive FilterValue where
  | scalar : String → FilterValue
  | vals : List String → FilterValue
deriving DecidableEq

/-- One entry of the `filters` dict: `{'operator': ..., 'value': ...}`. -/
structure FilterConfig where
  operator : String
  value : FilterValue
deriving DecidableEq

/-- The operator allow-list of `build_filtered_query` (source line 123). -/
def safe_operators : List String :=
  ["=", "!=", ">", ">=", "<", "<=", "LIKE", "IN", "NOT IN"]

/-- `value if isinstance(value, (list, tuple)) else [value]`. -/
def FilterValue.listify : FilterValue → List String
  | .scalar s => [s]
  | .vals vs => vs

/-- The filter loop of `build_filtered_query` (source lines 119–136):
processed in insertion order, the first operator whose upper-cased form is
outside the allow-list raises `ValueError`; an allowed filter contributes
one WHERE condition and its positional parameters. -/
def buildWhere : List (String × FilterConfig) →
    Except String (List String × List FilterValue)
  | [] => Except.ok ([], [])
  | (col_name, fc) :: rest =>
    if safe_operators.contains fc.operator.toUpper then
      let step :=
        if fc.operator.toUpper = "IN" || fc.operator.toUpper = "NOT IN" then
          (col_name ++ " " ++ fc.operator ++ " (" ++
            String.intercalate ", " (fc.value.listify.map (fun _ => "?")) ++ ")",
           fc.value.listify.map FilterValue.scalar)
        else
          (col_name ++ " " ++ fc.operator ++ " ?", [fc.value])
      match buildWhere rest with
      | Except.ok (cs, ps) => Except.ok (step.1 :: cs, step.2 ++ ps)
      | Except.error e => Except.error e
    else
      Except.error ("Operador não permitido: " ++ fc.operator)

/-- `build_filtered_query` (source lines 99–139): build the SELECT clause
(`', '.join(columns) if columns else '*'`, an empty list being falsy),
validate and assemble the filters, and return the query string together
with the positional parameter tuple; a disallowed operator raises before
any query is returned. -/
def build_filtered_query (table_name schema : String)
    (filters : List (String × FilterConfig)) (columns : Option (List String)) :
    Except String (String × List FilterValue) :=
  let select_clause :=
    match columns with
    | some cs => if cs.isEmpty then "*" else String.intercalate ", " cs
    | none => "*"
  let base := "SELECT " ++ select_clause ++ " FROM " ++ schema ++ "." ++ table_name
  match buildWhere filters with
  | Except.error e => Except.error e
  | Except.ok (conds, ps) =>
    if conds.isEmpty then Except.ok (base, ps)
    else Except.ok (base ++ " WHERE " ++ String.intercalate " AND " conds, ps)

/-! ### Helper lemmas -/

/-- Membership in a conditional singleton block of the reason accumulation. -/
lemma mem_ite_singleton {c : Prop} [Decidable c] {r x : Reason} :
    r ∈ (if c then [x] else []) ↔ c ∧ r = x := by
  by_cases h : c <;> simp [h]

/-- Counting in a conditional singleton block of the reason accumulation. -/
lemma countP_ite_singleton (p : Reason → Bool) (c : Prop) [Decidable c] (x : Reason) :
    List.countP p (if c then [x] else []) = if c then (if p x then 1 else 0) else 0 := by
  by_cases h : c <;> simp [h, List.countP_cons]

/-- A `many_nulls` reason is accumulated exactly when criterion 1 fires,
and it carries the column's null percentage. -/
lemma many_nulls_mem (nt zt p : ℚ) (dt : DType) (vs : List Value) :
    Reason.many_nulls p ∈ reasonsOf nt zt dt vs ↔
      nullPercent vs ≥ nt ∧ p = nullPercent vs := by
  simp [reasonsOf, mem_ite_singleton]

/-- An `empty_strings` reason is accumulated exactly when criterion 4 fires. -/
lemma empty_strings_mem (nt zt p : ℚ) (dt : DType) (vs : List Value) :
    Reason.empty_strings p ∈ reasonsOf nt zt dt vs ↔
      ((0 < (dropna vs).length ∧ dt = DType.text) ∧
        emptyPercent dt (dropna vs) ≥ zt) ∧ p = emptyPercent dt (dropna vs) := by
  simp [reasonsOf, mem_ite_singleton]

/-- No criterion of the source ever accumulates the spec's `low_variance`
reason code. -/
lemma countP_lowVariance (nt zt : ℚ) (dt : DType) (vs : List Value) :
    (reasonsOf nt zt dt vs).countP Reason.isLowVariance = 0 := by
  simp [reasonsOf, List.countP_append, countP_ite_singleton, Reason.isLowVariance]

/-- `List.contains` on strings agrees with list membership. -/
lemma contains_iff_mem (l : List String) (s : String) : l.contains s = true ↔ s ∈ l := by
  simp [List.contains_iff_exists_mem_beq]

/-- An exclusion list `E` drawn from the column names `A` and the keep list
`A.filter (· ∉ E)` partition `A` as sets. -/
lemma exclude_keep_partition (E A : List String) (hEA : ∀ n ∈ E, n ∈ A) :
    E.toFinset ∩ (A.filter (fun n => n ∉ E)).toFinset = ∅ ∧
    E.toFinset ∪ (A.filter (fun n => n ∉ E)).toFinset = A.toFinset := by
  constructor
  · apply Finset.eq_empty_iff_forall_not_mem.mpr
    intro n hn
    rw [Finset.mem_inter, List.mem_toFinset, List.mem_toFinset, List.mem_filter] at hn
    exact (of_decide_eq_true hn.2.2) hn.1
  · apply Finset.ext
    intro n
    simp only [Finset.mem_union, List.mem_toFinset, List.mem_filter, decide_eq_true_eq]
    constructor
    · rintro (hE | ⟨hA, _⟩)
      · exact hEA n hE
      · exact hA
    · intro hA
      by_cases hE : n ∈ E
      · exact Or.inl hE
      · exact Or.inr ⟨hA, hE⟩

/-- For any list of filters, `buildWhere` succeeds iff every filter's
upper-cased operator is in the allow-list; the first offending filter
makes it fail with the `ValueError` message. -/
lemma buildWhere_ok_iff (filters : List (String × FilterConfig)) :
    (∃ v, buildWhere filters = Except.ok v) ↔
      ∀ f ∈ filters, f.2.operator.toUpper ∈ safe_operators := by
  induction filters with
  | nil => exact ⟨fun _ f hf => absurd hf (List.not_mem_nil f), fun _ => ⟨([], []), rfl⟩⟩
  | cons hd tl ih =>
    obtain ⟨col_name, fc⟩ := hd
    simp only [buildWhere]
    by_cases hc : fc.operator.toUpper ∈ safe_operators
    · rw [if_pos ((contains_iff_mem _ _).mpr hc)]
      cases htl : buildWhere tl with
      | ok v =>
        constructor
        · intro _
          intro f hf
          rcases List.mem_cons.mp hf with rfl | hf'
          · exact hc
          · exact (ih.mp ⟨v, htl⟩) f hf'
        · intro _
          exact ⟨_, rfl⟩
      | error e =>
        constructor
        · rintro ⟨v', hv'⟩
          exact absurd hv' (by simp)
        · intro hall
          obtain ⟨v', hv'⟩ := ih.mpr (fun f hf => hall f (List.mem_cons_of_mem _ hf))
          rw [htl] at hv'
          exact absurd hv' (by simp)
    · rw [if_neg (fun hb => hc ((contains_iff_mem _ _).mp hb))]
      constructor
      · rintro ⟨v', hv'⟩
        exact absurd hv' (by simp)
      · intro hall
        exact absurd (hall (col_name, fc) (List.mem_cons_self _ _)) hc

/-! ### Claims -/

/-- C1: for every column analyzed, the verdict's action is EXCLUDE
(`EXCLUIR`) iff the accumulated reason sequence is non-empty; when no rule
emits a reason the action is KEEP (`MANTER`) and the reason list is empty. -/
theorem claim_C1_action_iff_reasons (df : DataFrame) (nt zt : ℚ) (res : AnalysisResult)
    (h : identify_columns_to_exclude df nt zt = some res) :
    ∀ a ∈ res.all_analysis,
      (a.acao = Acao.excluir ↔ a.reasons ≠ []) ∧ (a.acao = Acao.manter ↔ a.reasons = []) := by
  simp only [identify_columns_to_exclude] at h
  split at h
  · exact absurd h (by simp)
  · injection h with h'
    subst h'
    intro a ha
    simp only [List.mem_map] at ha
    obtain ⟨c, _, rfl⟩ := ha
    by_cases hr : reasonsOf nt zt c.dtype c.values = [] <;>
      simp [analyzeColumn, hr]

/-- C1 witness: a concrete analyzed column (two distinct numeric values,
no nulls) is kept with an empty reason list. -/
theorem claim_C1_witness :
    ((ColAnalysis.mk "a" Acao.manter 0 0 2 100 0 0 []).acao = Acao.excluir ↔
      (ColAnalysis.mk "a" Acao.manter 0 0 2 100 0 0 []).reasons ≠ []) ∧
    ((ColAnalysis.mk "a" Acao.manter 0 0 2 100 0 0 []).acao = Acao.manter ↔
      (ColAnalysis.mk "a" Acao.manter 0 0 2 100 0 0 []).reasons = []) :=
  claim_C1_action_iff_reasons
    (DataFrame.mk [Col.mk "a" DType.numeric [Value.num 1, Value.num 2]]) 90 80
    (AnalysisResult.mk 1 [] ["a"] [ColAnalysis.mk "a" Acao.manter 0 0 2 100 0 0 []])
    (by simp +decide [identify_columns_to_exclude, DataFrame.empty, DataFrame.nrows,
          analyzeColumn, reasonsOf, nullPercent, nullCount, dropna, uniqueCount,
          uniquePercent, zeroPercent, emptyPercent, Value.isNull, Value.isZero,
          List.countP_cons, List.countP_nil, List.dedup_cons_of_mem,
          List.dedup_cons_of_not_mem])
    (ColAnalysis.mk "a" Acao.manter 0 0 2 100 0 0 []) (by simp)

/-- C3: for a column with at least one row, a MANY_NULLS reason is emitted
iff `nullCount / totalRows * 100 ≥ nullThresholdPercent`, where
`nullCount` counts the null markers of the column. -/
theorem claim_C3_many_nulls_iff (nt zt : ℚ) (name : String) (dt : DType)
    (vs : List Value) (_hrows : 0 < vs.length) :
    (∃ p, Reason.many_nulls p ∈ (analyzeColumn nt zt name dt vs).reasons) ↔
      ((vs.countP Value.isNull : ℚ) / (vs.length : ℚ)) * 100 ≥ nt := by
  have hre : (analyzeColumn nt zt name dt vs).reasons = reasonsOf nt zt dt vs := rfl
  have hnp : nullPercent vs = ((vs.countP Value.isNull : ℚ) / (vs.length : ℚ)) * 100 := rfl
  rw [hre]
  constructor
  · rintro ⟨p, hp⟩
    exact hnp ▸ ((many_nulls_mem nt zt p dt vs).mp hp).1
  · intro hge
    exact ⟨nullPercent vs, (many_nulls_mem nt zt _ dt vs).mpr ⟨hnp ▸ hge, rfl⟩⟩

/-- C3 witness: a fully-null one-row column has null percentage 100 ≥ 90
and indeed carries a MANY_NULLS reason. -/
theorem claim_C3_witness :
    (∃ p, Reason.many_nulls p ∈ (analyzeColumn 90 80 "c" DType.text [Value.null]).reasons) ↔
      ((([Value.null] : List Value).countP Value.isNull : ℚ) /
        (([Value.null] : List Value).length : ℚ)) * 100 ≥ 90 :=
  claim_C3_many_nulls_iff 90 80 "c" DType.text [Value.null] (by decide)

/-- C9: no column's reason list ever contains both MANY_ZEROS and
EMPTY_STRINGS: the zero-ratio rule fires only on numeric-classified
columns and the empty-string rule only on text/object-classified columns,
and a column has exactly one dtype classification. -/
theorem claim_C9_zero_empty_exclusive (nt zt : ℚ) (name : String) (dt : DType)
    (vs : List Value) :
    ((analyzeColumn nt zt name dt vs).reasons.countP Reason.isManyZeros = 0) ∨
    ((analyzeColumn nt zt name dt vs).reasons.countP Reason.isEmptyStrings = 0) := by
  have hre : (analyzeColumn nt zt name dt vs).reasons = reasonsOf nt zt dt vs := rfl
  rw [hre]
  by_cases h : dt = DType.text
  · left
    subst h
    simp [reasonsOf, List.countP_append, countP_ite_singleton, Reason.isManyZeros]
  · right
    simp [reasonsOf, List.countP_append, countP_ite_singleton, Reason.isEmptyStrings, h]

/-- C10: a column with at least one row whose values are all null, under
any null threshold ≤ 100, is excluded with exactly one reason:
MANY_NULLS at 100%; no other rule can fire on an empty non-null subset. -/
theorem claim_C10_all_null_column (nt zt : ℚ) (name : String) (dt : DType)
    (vs : List Value) (hrows : 0 < vs.length) (hnull : ∀ v ∈ vs, v = Value.null)
    (ht : nt ≤ 100) :
    (analyzeColumn nt zt name dt vs).reasons = [Reason.many_nulls 100] ∧
    (analyzeColumn nt zt name dt vs).acao = Acao.excluir := by
  have hdrop : dropna vs = [] := by
    rw [dropna, List.filter_eq_nil_iff]
    intro v hv
    rw [hnull v hv]
    simp [Value.isNull]
  have hcount : nullCount vs = vs.length := by
    rw [nullCount]
    apply List.countP_eq_length.mpr
    intro v hv
    rw [hnull v hv]
    rfl
  have hlen : (vs.length : ℚ) ≠ 0 :=
    Nat.cast_ne_zero.mpr (Nat.pos_iff_ne_zero.mp hrows)
  have hnp : nullPercent vs = 100 := by
    rw [nullPercent, hcount, div_self hlen, one_mul]
  have hr : reasonsOf nt zt dt vs = [Reason.many_nulls 100] := by
    simp [reasonsOf, hdrop, hnp, ht]
  refine ⟨hr, ?_⟩
  have hacao : (analyzeColumn nt zt name dt vs).acao =
      if reasonsOf nt zt dt vs = [] then Acao.manter else Acao.excluir := rfl
  rw [hacao, hr]
  simp

/-- C10 witness: a two-row all-null column under the relaxed thresholds is
excluded with the single reason MANY_NULLS at 100%. -/
theorem claim_C10_witness :
    (analyzeColumn 90 80 "c" DType.numeric [Value.null, Value.null]).reasons =
      [Reason.many_nulls 100] ∧
    (analyzeColumn 90 80 "c" DType.numeric [Value.null, Value.null]).acao = Acao.excluir :=
  claim_C10_all_null_column 90 80 "c" DType.numeric [Value.null, Value.null]
    (by decide) (by decide) (by norm_num)

/-- C2: for every successfully produced analysis result, the sequences
`columns_to_exclude` and `columns_to_keep` partition the set of all column
names exactly: their intersection is empty and their union is the set of
all column names of the analyzed table. -/
theorem claim_C2_partition (df : DataFrame) (nt zt : ℚ) (res : AnalysisResult)
    (h : identify_columns_to_exclude df nt zt = some res) :
    res.columns_to_exclude.toFinset ∩ res.columns_to_keep.toFinset = ∅ ∧
    res.columns_to_exclude.toFinset ∪ res.columns_to_keep.toFinset
      = (df.cols.map Col.name).toFinset := by
  simp only [identify_columns_to_exclude] at h
  split at h
  · exact absurd h (by simp)
  · injection h with h'
    subst h'
    apply exclude_keep_partition
    intro n hn
    simp only [List.mem_map, List.mem_filter] at hn
    obtain ⟨a, ⟨⟨c, hc, rfl⟩, _⟩, rfl⟩ := hn
    exact List.mem_map.mpr ⟨c, hc, rfl⟩

/-- C2 witness: a concrete one-column analysis keeps the single column and
the two derived lists partition the name set. -/
theorem claim_C2_witness :
    (AnalysisResult.mk 1 [] ["b"]
        [ColAnalysis.mk "b" Acao.manter 0 0 2 100 0 0 []]).columns_to_exclude.toFinset ∩
      (AnalysisResult.mk 1 [] ["b"]
        [ColAnalysis.mk "b" Acao.manter 0 0 2 100 0 0 []]).columns_to_keep.toFinset = ∅ ∧
    (AnalysisResult.mk 1 [] ["b"]
        [ColAnalysis.mk "b" Acao.manter 0 0 2 100 0 0 []]).columns_to_exclude.toFinset ∪
      (AnalysisResult.mk 1 [] ["b"]
        [ColAnalysis.mk "b" Acao.manter 0 0 2 100 0 0 []]).columns_to_keep.toFinset
      = ((DataFrame.mk [Col.mk "b" DType.text
          [Value.str "x", Value.str "y"]]).cols.map Col.name).toFinset :=
  claim_C2_partition
    (DataFrame.mk [Col.mk "b" DType.text [Value.str "x", Value.str "y"]]) 90 80
    (AnalysisResult.mk 1 [] ["b"] [ColAnalysis.mk "b" Acao.manter 0 0 2 100 0 0 []])
    (by
      have h1 : reasonsOf 90 80 DType.text [Value.str "x", Value.str "y"] = [] := by
        simp +decide [reasonsOf, nullPercent, nullCount, dropna, uniqueCount, emptyPercent,
          zeroPercent, Value.isNull, List.countP_cons, List.countP_nil,
          List.dedup_cons_of_mem, List.dedup_cons_of_not_mem]
      have h2 : analyzeColumn 90 80 "b" DType.text [Value.str "x", Value.str "y"]
          = ColAnalysis.mk "b" Acao.manter 0 0 2 100 0 0 [] := by
        simp +decide [analyzeColumn, h1, nullPercent, nullCount, dropna, uniqueCount,
          uniquePercent, zeroPercent, emptyPercent, Value.isNull,
          List.countP_cons, List.countP_nil, List.dedup_cons_of_mem,
          List.dedup_cons_of_not_mem]
      simp [identify_columns_to_exclude, DataFrame.empty, DataFrame.nrows, h2])

/-- C4 counterexample: under the strict preset, a text column with 2
distinct values over 200 rows (distinct percentage 1 < 2) accumulates NO
reason at all — in particular no LOW_VARIANCE reason, contrary to the
claim that the strict preset enables a 2% low-variance rule. -/
theorem claim_C4_counterexample :
    (analyze_for_exclusion true (DataFrame.mk [Col.mk "c" DType.text
        (List.replicate 100 (Value.str "a") ++ List.replicate 100 (Value.str "b"))])).map
      (fun r => r.all_analysis.map (fun a => (a.reasons, a.valores_unicos, a.variancia_percent)))
      = some [(([] : List Reason), 2, (1 : ℚ))] := by
  set vs : List Value :=
    List.replicate 100 (Value.str "a") ++ List.replicate 100 (Value.str "b") with hvs
  have hmem : ∀ v ∈ vs, v = Value.str "a" ∨ v = Value.str "b" := by
    intro v hv
    rw [hvs, List.mem_append] at hv
    rcases hv with hv | hv
    · exact Or.inl (List.eq_of_mem_replicate hv)
    · exact Or.inr (List.eq_of_mem_replicate hv)
  have hlen : vs.length = 200 := by
    rw [hvs, List.length_append, List.length_replicate, List.length_replicate]
  have hdrop : dropna vs = vs := by
    rw [dropna, List.filter_eq_self]
    intro v hv
    rcases hmem v hv with rfl | rfl <;> rfl
  have hnullc : nullCount vs = 0 := by
    rw [nullCount, List.countP_eq_zero]
    intro v hv
    rcases hmem v hv with rfl | rfl <;> simp [Value.isNull]
  have hdedup : vs.dedup.length = 2 := by
    rw [← List.card_toFinset, hvs, List.toFinset_append,
      List.toFinset_replicate_of_ne_zero (by norm_num),
      List.toFinset_replicate_of_ne_zero (by norm_num)]
    decide
  have hemptyc : vs.countP isEmptyText = 0 := by
    rw [List.countP_eq_zero]
    intro v hv
    rcases hmem v hv with rfl | rfl <;> decide
  have huniq : uniqueCount vs = 2 := by
    rw [uniqueCount, if_pos (by rw [hlen]; norm_num), hdedup]
  have hvar : uniquePercent vs = 1 := by
    rw [uniquePercent, if_pos (by rw [hlen]; norm_num), huniq, hlen]
    norm_num
  have hnp : ¬ (nullPercent vs ≥ 70) := by
    rw [nullPercent, hnullc, hlen]
    norm_num
  have hep : emptyPercent DType.text vs = 0 := by
    rw [emptyPercent, if_pos ⟨by rw [hlen]; norm_num, rfl⟩, hemptyc, hlen]
    norm_num
  have hreasons : reasonsOf 70 90 DType.text vs = [] := by
    rw [reasonsOf, hdrop]
    have h2 : ¬ (0 < vs.length ∧ uniqueCount vs = 1) := by
      rintro ⟨_, h⟩
      rw [huniq] at h
      exact absurd h (by norm_num)
    have h3 : ¬ ((0 < vs.length ∧ DType.text = DType.numeric) ∧
        zeroPercent DType.text vs ≥ 90) := by
      rintro ⟨⟨_, h⟩, _⟩
      exact absurd h (by simp)
    have h4 : ¬ ((0 < vs.length ∧ DType.text = DType.text) ∧
        emptyPercent DType.text vs ≥ 90) := by
      rintro ⟨_, hge⟩
      rw [hep] at hge
      exact absurd hge (by norm_num)
    rw [if_neg hnp, if_neg h2, if_neg h3, if_neg h4]
    rfl
  have hne : ¬ ((DataFrame.mk [Col.mk "c" DType.text vs]).empty = true) := by
    simp [DataFrame.empty, DataFrame.nrows, hlen]
  simp [analyze_for_exclusion, identify_columns_to_exclude, hne, analyzeColumn,
    hreasons, hdrop, huniq, hvar]

/-- C4 (amended): the relaxed default preset analyzes with null threshold
90 and zero/empty threshold 80, the strict preset with null threshold 70
and zero/empty threshold 90; neither preset enables a low-variance rule —
the analyzer never emits the spec's LOW_VARIANCE reason code for any
thresholds, dtype or values. -/
theorem claim_C4_presets_no_low_variance :
    (∀ df, analyze_for_exclusion true df = identify_columns_to_exclude df 70 90) ∧
    (∀ df, analyze_for_exclusion false df = identify_columns_to_exclude df 90 80) ∧
    (∀ (nt zt : ℚ) (name : String) (dt : DType) (vs : List Value),
      (analyzeColumn nt zt name dt vs).reasons.countP Reason.isLowVariance = 0) :=
  ⟨fun _ => rfl, fun _ => rfl, fun nt zt _ dt vs => countP_lowVariance nt zt dt vs⟩

/-- C5 counterexample: a table with one column and zero rows is rejected
by the analysis (`df.empty` → `return None`); no full result with
per-column KEEP verdicts is produced, contrary to the claim. -/
theorem claim_C5_counterexample :
    identify_columns_to_exclude (DataFrame.mk [Col.mk "a" DType.text []]) 90 80 = none := by
  decide

/-- C5 (amended): for a table with at least one column in which every
column has zero rows, the analysis aborts and returns no result (`None`);
the per-column metric computation is never reached, so no division error
arises. -/
theorem claim_C5_zero_rows_none (df : DataFrame) (nt zt : ℚ)
    (hcols : df.cols ≠ []) (hzero : ∀ c ∈ df.cols, c.values = []) :
    identify_columns_to_exclude df nt zt = none := by
  obtain ⟨cols⟩ := df
  cases cols with
  | nil => exact absurd rfl hcols
  | cons c cs =>
    have hv : c.values = [] := hzero c (List.mem_cons_self _ _)
    simp [identify_columns_to_exclude, DataFrame.empty, DataFrame.nrows, hv]

/-- C5 witness: the amended behavior at a concrete one-column, zero-row
table. -/
theorem claim_C5_witness :
    identify_columns_to_exclude (DataFrame.mk [Col.mk "b" DType.numeric []]) 70 90 = none :=
  claim_C5_zero_rows_none (DataFrame.mk [Col.mk "b" DType.numeric []]) 70 90
    (by simp) (by simp)

/-- C6 counterexample: when the connection cannot be established (even
though the query would have succeeded), and likewise when the query
raises, `query_sqlserver_safe` returns the empty dataframe — an
empty-but-successful tabular result — instead of surfacing a described
error (its return type cannot even carry one). -/
theorem claim_C6_counterexample :
    query_sqlserver_safe none
        (fun _ => Except.ok (DataFrame.mk [Col.mk "a" DType.text [Value.str "x"]]))
      = DataFrame.mk [] ∧
    query_sqlserver_safe (some ()) (fun _ => Except.error "Erro na query")
      = DataFrame.mk [] ∧
    (DataFrame.mk []).empty = true :=
  ⟨rfl, rfl, rfl⟩

/-- C6 (amended): data-source failures are swallowed, not surfaced: a
failed connection or a failing query both make `query_sqlserver_safe`
return the empty dataframe, and the caller then treats that frame exactly
like a no-data table, returning `None` from the analysis. -/
theorem claim_C6_failures_swallowed :
    (∀ read_sql, query_sqlserver_safe none read_sql = DataFrame.mk []) ∧
    (∀ (c : Unit) read_sql msg, read_sql c = Except.error msg →
      query_sqlserver_safe (some c) read_sql = DataFrame.mk []) ∧
    (∀ nt zt : ℚ, identify_columns_to_exclude (DataFrame.mk []) nt zt = none) := by
  refine ⟨fun _ => rfl, fun c rs msg h => ?_, fun _ _ => rfl⟩
  simp [query_sqlserver_safe, h]

/-- C6 witness: a concrete failing query is downgraded to the empty
dataframe. -/
theorem claim_C6_witness :
    query_sqlserver_safe (some ()) (fun _ => Except.error "timeout") = DataFrame.mk [] :=
  claim_C6_failures_swallowed.2.1 () (fun _ => Except.error "timeout") "timeout" rfl

/-- C7 counterexample: for the text column `["", " ", "x", ""]` (4 rows,
0 nulls) the empty-string percentage is 75.0 — three of the four values
are empty after trimming — not 50.0 as the claim states. -/
theorem claim_C7_counterexample :
    (analyzeColumn 90 80 "notes" DType.text
      [Value.str "", Value.str " ", Value.str "x", Value.str ""]).vazias_percent = 75 ∧
    (analyzeColumn 90 80 "notes" DType.text
      [Value.str "", Value.str " ", Value.str "x", Value.str ""]).vazias_percent ≠ 50 := by
  have h75 : (analyzeColumn 90 80 "notes" DType.text
      [Value.str "", Value.str " ", Value.str "x", Value.str ""]).vazias_percent = 75 := by
    simp +decide [analyzeColumn, emptyPercent, dropna, isEmptyText, strip, Value.toStr,
      Value.isNull, isPyWhitespace, List.countP_cons, List.countP_nil]
    norm_num
  refine ⟨h75, ?_⟩
  rw [h75]
  norm_num

/-- C7 (amended): a value of a text column counts as empty iff its string
form stripped of leading/trailing whitespace is the zero-length string;
for the text column `["", " ", "x", ""]` with zero/empty threshold 80 the
empty-string percentage is 75.0 (3 of 4 empty after trimming), below the
threshold, so no EMPTY_STRINGS reason is emitted and the action is KEEP.
In general, for a text column an EMPTY_STRINGS reason is emitted iff the
non-null subset is non-empty and its empty-after-trimming percentage
reaches the threshold. -/
theorem claim_C7_empty_string_rule :
    ((analyzeColumn 90 80 "notes" DType.text
        [Value.str "", Value.str " ", Value.str "x", Value.str ""]).vazias_percent = 75 ∧
     (analyzeColumn 90 80 "notes" DType.text
        [Value.str "", Value.str " ", Value.str "x", Value.str ""]).reasons = [] ∧
     (analyzeColumn 90 80 "notes" DType.text
        [Value.str "", Value.str " ", Value.str "x", Value.str ""]).acao = Acao.manter) ∧
    (∀ (nt zt : ℚ) (name : String) (vs : List Value),
      (∃ p, Reason.empty_strings p ∈ (analyzeColumn nt zt name DType.text vs).reasons) ↔
        (0 < (dropna vs).length ∧ emptyPercent DType.text (dropna vs) ≥ zt)) := by
  constructor
  · refine ⟨?_, ?_, ?_⟩
    · simp +decide [analyzeColumn, emptyPercent, dropna, isEmptyText, strip, Value.toStr,
        Value.isNull, isPyWhitespace, List.countP_cons, List.countP_nil]
      norm_num
    · simp +decide [analyzeColumn, reasonsOf, nullPercent, nullCount, dropna, uniqueCount,
        emptyPercent, zeroPercent, isEmptyText, strip, Value.toStr, Value.isNull,
        Value.isZero, isPyWhitespace, List.countP_cons, List.countP_nil,
        List.dedup_cons_of_mem, List.dedup_cons_of_not_mem]
      norm_num
    · simp +decide [analyzeColumn, reasonsOf, nullPercent, nullCount, dropna, uniqueCount,
        emptyPercent, zeroPercent, isEmptyText, strip, Value.toStr, Value.isNull,
        Value.isZero, isPyWhitespace, List.countP_cons, List.countP_nil,
        List.dedup_cons_of_mem, List.dedup_cons_of_not_mem]
      norm_num
  · intro nt zt name vs
    have hre : (analyzeColumn nt zt name DType.text vs).reasons =
        reasonsOf nt zt DType.text vs := rfl
    rw [hre]
    constructor
    · rintro ⟨p, hp⟩
      have h := (empty_strings_mem nt zt p DType.text vs).mp hp
      exact ⟨h.1.1.1, h.1.2⟩
    · rintro ⟨h1, h2⟩
      exact ⟨emptyPercent DType.text (dropna vs),
        (empty_strings_mem nt zt _ DType.text vs).mpr ⟨⟨⟨h1, rfl⟩, h2⟩, rfl⟩⟩

/-- C8: the query builder fails with a described validation error iff some
filter's operator (case-normalized, as the source compares
`operator.upper()`) is outside the allow-list
{=, !=, >, >=, <, <=, LIKE, IN, NOT IN}; the error is raised before any
query string is returned.  When every filter's operator is allowed, it
succeeds in producing a parameterized query. -/
theorem claim_C8_operator_allowlist (table_name schema : String)
    (filters : List (String × FilterConfig)) (columns : Option (List String)) :
    ((∃ e, build_filtered_query table_name schema filters columns = Except.error e) ↔
      (∃ f ∈ filters, f.2.operator.toUpper ∉ safe_operators)) ∧
    ((∃ qp, build_filtered_query table_name schema filters columns = Except.ok qp) ↔
      (∀ f ∈ filters, f.2.operator.toUpper ∈ safe_operators)) := by
  have hok : (∃ qp, build_filtered_query table_name schema filters columns = Except.ok qp) ↔
      (∃ v, buildWhere filters = Except.ok v) := by
    constructor
    · rintro ⟨qp, hqp⟩
      unfold build_filtered_query at hqp
      rcases hbw : buildWhere filters with e | v
      · rw [hbw] at hqp
        exact absurd hqp (by simp)
      · exact ⟨v, rfl⟩
    · rintro ⟨⟨conds, ps⟩, hv⟩
      unfold build_filtered_query
      rw [hv]
      by_cases hc : conds.isEmpty <;> simp [hc]
  have herr : (∃ e, build_filtered_query table_name schema filters columns = Except.error e) ↔
      ¬ (∃ v, buildWhere filters = Except.ok v) := by
    constructor
    · rintro ⟨e, he⟩ ⟨v, hv⟩
      unfold build_filtered_query at he
      rw [hv] at he
      rcases v with ⟨conds, ps⟩
      by_cases hc : conds.isEmpty <;> simp [hc] at he
    · intro hno
      rcases hbw : buildWhere filters with e | v
      · refine ⟨e, ?_⟩
        unfold build_filtered_query
        rw [hbw]
      · exact absurd ⟨v, hbw⟩ hno
  constructor
  · rw [herr, buildWhere_ok_iff]
    push_neg
    rfl
  · rw [hok, buildWhere_ok_iff]

end DataQualityAnalyzer
